import Mathlib

/-!
Verification of `egi_notebooks_hub/egiauthenticator.py`.

The three effectful methods of the authenticator classes —
`EGICheckinAuthenticator.refresh_user`, `DataHubAuthenticator.authenticate`
and `DataHubAuthenticator.pre_spawn_start` — are shallowly embedded as pure
Lean functions.  Network I/O is replaced by an explicit oracle environment:
each `tornado` `fetch` call is represented by an `Except Nat body` value,
where `Except.error code` stands for the `HTTPError`/`HTTPClientError`
raised on a non-2xx status with that numeric code, and `Except.ok body`
stands for a 2xx response whose JSON body parsed to `body`.  The functions
return, besides the Python return value, the ordered list of HTTP requests
they issued, the final in-memory auth-state dictionary (Python mutates it
in place) and any call made to the spawner's `set_access_token` hook.

Timestamps (`time.time()`, `expires_in`, `auth_refresh_age`) are modelled
as integers: the Python code only adds, subtracts and compares them, so
the control flow is unchanged by this choice.

JSON dictionaries are modelled as structures whose fields are `Option`s
when the Python code tolerates (or crashes on) their absence.
-/

/-- Raw body of a token-endpoint response, as read by `refresh_user`
(lines 131-140 of the source).  Every key access in Python can raise
`KeyError`, hence all fields are optional. -/
structure TokenResponse where
  expires_in : Option Int
  access_token : Option String
  refresh_token : Option String
  id_token : Option String
deriving DecidableEq, Repr

/-- The `refresh_info` entry stored in auth_state: the raw token-endpoint
response dictionary with the `expiry_time` key added (line 132). -/
structure RefreshInfo where
  resp : TokenResponse
  expiry_time : Option Int
deriving DecidableEq, Repr

/-- The auth-state dictionary.  `Option` fields model key presence. -/
structure AuthState where
  access_token : Option String
  refresh_token : Option String
  refresh_info : Option RefreshInfo
  onedata_token : Option String
  onedata_user : Option String
deriving DecidableEq, Repr

/-- A Python dict is falsy iff it is empty; an `AuthState` is "empty" when
it holds no keys at all. -/
def AuthState.isEmpty (a : AuthState) : Bool :=
  a.access_token.isNone && a.refresh_token.isNone && a.refresh_info.isNone
    && a.onedata_token.isNone && a.onedata_user.isNone

/-- Python truthiness of `auth_state` (`None` and the empty dict are falsy). -/
def authStateTruthy : Option AuthState → Bool
  | none => false
  | some a => !a.isEmpty

/-- Value of `auth_state.get("refresh_info", {}).get("expiry_time", 0)`
(lines 96-98). -/
def storedExpiry (a : AuthState) : Int :=
  match a.refresh_info with
  | none => 0
  | some ri => ri.expiry_time.getD 0

/-- Outcome of `refresh_user` as seen by the caller. -/
inductive RefreshResult
  /-- `return False` at the guard (line 93): no refresh token available. -/
  | notPossible
  /-- `return True` (line 101): credentials still valid. -/
  | stillValid
  /-- `return False` after `HTTPClientError` (line 130). -/
  | refreshFailed
  /-- `return {"auth_state": state}` (line 141). -/
  | refreshed (state : AuthState)
  /-- Uncaught `KeyError` on the named key of the response body. -/
  | keyError (key : String)
deriving DecidableEq, Repr

/-- Full observable behaviour of one `refresh_user` call. -/
structure RefreshOutput where
  result : RefreshResult
  /-- The auth_state dictionary after the call (it is mutated in place). -/
  authState : Option AuthState
  /-- Whether the token-endpoint `fetch` was issued. -/
  networkCalled : Bool
  /-- Argument pair of the `spawner.set_access_token` call, if made. -/
  hookCall : Option (String × Option String)
deriving DecidableEq, Repr

/-- Embedding of `EGICheckinAuthenticator.refresh_user` (source lines
89-141).  `fetch` is the oracle for the single token-endpoint POST:
`Except.error code` models `HTTPClientError` with that HTTP code,
`Except.ok resp` a 2xx response with parsed body `resp`.  `hasHook`
models `callable(getattr(user.spawner, "set_access_token", None))`. -/
def refresh_user (now auth_refresh_age : Int) (fetch : Except Nat TokenResponse)
    (hasHook : Bool) (a? : Option AuthState) : RefreshOutput :=
  match a? with
  | none => ⟨.notPossible, none, false, none⟩
  | some a =>
    if a.isEmpty || a.refresh_token.isNone then
      -- `if not auth_state or "refresh_token" not in auth_state: return False`
      ⟨.notPossible, some a, false, none⟩
    else if storedExpiry a - now > auth_refresh_age then
      -- `if time_left > self.auth_refresh_age: return True`
      ⟨.stillValid, some a, false, none⟩
    else
      match fetch with
      | .error _ => ⟨.refreshFailed, some a, true, none⟩
      | .ok resp =>
        match resp.expires_in with
        | none =>
          -- KeyError at `refresh_info["expires_in"]`, before any mutation
          ⟨.keyError "expires_in", some a, true, none⟩
        | some ei =>
          let newInfo : RefreshInfo := ⟨resp, some (now + ei)⟩
          match resp.access_token with
          | none =>
            -- `auth_state["refresh_info"]` was already assigned (line 133)
            ⟨.keyError "access_token",
             some { a with refresh_info := some newInfo }, true, none⟩
          | some tok =>
            match resp.refresh_token with
            | none =>
              ⟨.keyError "refresh_token",
               some { a with refresh_info := some newInfo,
                             access_token := some tok }, true, none⟩
            | some rtok =>
              let a2 : AuthState :=
                { a with refresh_info := some newInfo,
                         access_token := some tok,
                         refresh_token := some rtok }
              ⟨.refreshed a2, some a2, true,
               if hasHook then some (tok, resp.id_token) else none⟩

/-- Body of a successful named-token lookup (`GET
/api/v3/onezone/user/tokens/named/name/<name>`, lines 222-224): the code
reads `["token"]` and `["subject"]["id"]`. -/
structure LookupBody where
  token : String
  subject_id : String
deriving DecidableEq, Repr

/-- Body of a successful token creation (`POST
/api/v3/onezone/user/tokens/named`, lines 247-248): the code reads
`["token"]`. -/
structure CreateBody where
  token : String
deriving DecidableEq, Repr

/-- Body of a successful user resolution (`GET /api/v3/onezone/user`,
lines 260-261): the code reads `["userId"]`. -/
structure UserBody where
  userId : String
deriving DecidableEq, Repr

/-- One HTTP request issued by `DataHubAuthenticator.authenticate` to the
onezone, in program order. -/
inductive ZoneCall
  /-- `GET .../user/tokens/named/name/<token_name>` (line 219). -/
  | lookupNamed (name : String)
  /-- `POST .../user/tokens/named` with the fixed token descriptor
  (lines 232-244). -/
  | createNamed (name : String)
  /-- `GET .../user` (lines 253-257). -/
  | getUser
deriving DecidableEq, Repr

/-- Oracle environment for `DataHubAuthenticator.authenticate`: the
configured token name and the responses the onezone would give to each of
the three possible requests. -/
structure ZoneEnv where
  token_name : String
  lookup : Except Nat LookupBody
  create : Except Nat CreateBody
  userinfo : Except Nat UserBody

/-- Outcome of `DataHubAuthenticator.authenticate`. -/
inductive AuthResult
  /-- Normal return of `user_data` with the updated auth_state (line 268). -/
  | ok (state : AuthState)
  /-- `raise e` of an `HTTPError` with this code (lines 229, 251, 264). -/
  | raised (code : Nat)
  /-- Uncaught `KeyError` reading `user_data["auth_state"]["access_token"]`. -/
  | keyError
deriving DecidableEq, Repr

/-- Observable behaviour of one `authenticate` call: its outcome and the
ordered list of onezone requests it issued. -/
structure AuthOutput where
  result : AuthResult
  calls : List ZoneCall
deriving DecidableEq, Repr

/-- Python truthiness of the local `onedata_token` variable at line 230:
falsy when still `None` or when the looked-up token string is empty. -/
def tokenFalsy : Option String → Bool
  | none => true
  | some s => s = ""

/-- Embedding of `DataHubAuthenticator.authenticate` (source lines
204-268), starting after the `super().authenticate` call: `a` is the
auth_state contained in the `user_data` that call returned.  The
`x-auth-token` header is built from `a.access_token` (line 210), whose
absence would raise `KeyError`. -/
def authenticate (env : ZoneEnv) (a : AuthState) : AuthOutput :=
  match a.access_token with
  | none => ⟨.keyError, []⟩
  | some _ =>
    let afterLookup : Except Nat (Option String × Option String) :=
      match env.lookup with
      | .ok body => .ok (some body.token, some body.subject_id)
      | .error code => if code = 404 then .ok (none, none) else .error code
    match afterLookup with
    | .error code => ⟨.raised code, [.lookupNamed env.token_name]⟩
    | .ok (tk, us) =>
      if tokenFalsy tk then
        -- `if not onedata_token:` — create one, then resolve the user
        match env.create with
        | .error code =>
          ⟨.raised code,
           [.lookupNamed env.token_name, .createNamed env.token_name]⟩
        | .ok cb =>
          match env.userinfo with
          | .error code =>
            ⟨.raised code,
             [.lookupNamed env.token_name, .createNamed env.token_name,
              .getUser]⟩
          | .ok ub =>
            ⟨.ok { a with onedata_token := some cb.token,
                          onedata_user := some ub.userId },
             [.lookupNamed env.token_name, .createNamed env.token_name,
              .getUser]⟩
      else
        ⟨.ok { a with onedata_token := tk, onedata_user := us },
         [.lookupNamed env.token_name]⟩

/-- The LUMA mapping payload POSTed at lines 298-307. -/
structure MappingPayload where
  onedataUserId : Option String
  credType : String
  uid : String
  displayUid : String
deriving DecidableEq, Repr

/-- The concrete payload the code builds: the storage user id paired with
the fixed POSIX descriptor (`type: posix`, `uid: 1000`, `displayUid:
1000`). -/
def mkMapping (userId : Option String) : MappingPayload :=
  ⟨userId, "posix", "1000", "1000"⟩

/-- One HTTP request issued by `pre_spawn_start` to the onepanel. -/
inductive MapCall
  /-- `GET <map_url>/<user_id>` (line 292). -/
  | mapLookup (userId : Option String)
  /-- `POST <map_url>` with the mapping payload (lines 308-313). -/
  | mapCreate (payload : MappingPayload)
deriving DecidableEq, Repr

/-- Oracle environment for `DataHubAuthenticator.pre_spawn_start`:
configuration plus the responses of the two possible onepanel requests. -/
structure SpawnEnv where
  map_users : Bool
  hasHook : Bool
  oneprovider_host : String
  mapLookup : Except Nat Unit
  mapCreate : Except Nat Unit

/-- Outcome of `pre_spawn_start`. -/
inductive SpawnResult
  /-- Normal return. -/
  | ok
  /-- `raise e` of an `HTTPError` with this code (lines 319, 322). -/
  | raised (code : Nat)
  /-- Uncaught `KeyError` reading `auth_state["access_token"]` in the
  superclass `pre_spawn_start` (line 146). -/
  | keyError
deriving DecidableEq, Repr

/-- Observable behaviour of one `pre_spawn_start` call. -/
structure SpawnOutput where
  result : SpawnResult
  calls : List MapCall
  /-- `some v` iff `spawner.environment[self.token_env]` was assigned `v`
  (line 323; `v` itself is `auth_state.get("onedata_token")`, possibly
  `None`). -/
  envToken : Option (Option String)
  /-- `some h` iff `spawner.environment[self.oneprovider_env]` was
  assigned `h` (line 324). -/
  envHost : Option String
  /-- Argument of the `set_access_token` hook call made by the superclass
  method (line 146), if made. -/
  hookToken : Option String
deriving DecidableEq, Repr

/-- Embedding of `DataHubAuthenticator.pre_spawn_start` (source lines
270-324), including the inherited `EGICheckinAuthenticator.pre_spawn_start`
(lines 143-146) it calls first.  Both methods load the same auth state. -/
def pre_spawn_start (env : SpawnEnv) (a? : Option AuthState) : SpawnOutput :=
  match a? with
  | none => ⟨.ok, [], none, none, none⟩
  | some a =>
    if a.isEmpty then
      -- super: falsy, no hook; self: `if not auth_state: return`
      ⟨.ok, [], none, none, none⟩
    else
      let hookRes : Except Unit (Option String) :=
        if env.hasHook then
          match a.access_token with
          | none => .error ()  -- KeyError at `auth_state["access_token"]`
          | some t => .ok (some t)
        else .ok none
      match hookRes with
      | .error _ => ⟨.keyError, [], none, none, none⟩
      | .ok hk =>
        if env.map_users then
          let userId := a.onedata_user
          match env.mapLookup with
          | .ok _ =>
            -- `Mapping exists` — fall through to the environment writes
            ⟨.ok, [.mapLookup userId],
             some a.onedata_token, some env.oneprovider_host, hk⟩
          | .error code =>
            if code = 404 then
              match env.mapCreate with
              | .ok _ =>
                ⟨.ok, [.mapLookup userId, .mapCreate (mkMapping userId)],
                 some a.onedata_token, some env.oneprovider_host, hk⟩
              | .error c2 =>
                ⟨.raised c2,
                 [.mapLookup userId, .mapCreate (mkMapping userId)],
                 none, none, hk⟩
            else
              ⟨.raised code, [.mapLookup userId], none, none, hk⟩
        else
          ⟨.ok, [], some a.onedata_token, some env.oneprovider_host, hk⟩

/-- C1 (counterexample): the claim says `refresh_user` never reaches the
token-endpoint call unless the auth state contains both `access_token` and
`refresh_token`.  The guard at line 91 only checks `refresh_token`: with an
auth state holding a refresh token but no access token, the network call
is issued. -/
theorem c1_guard_cex :
    (refresh_user 1000 300 (Except.error 500) false
      (some ⟨none, some "rt", none, none, none⟩)).networkCalled = true ∧
    (⟨none, some "rt", none, none, none⟩ : AuthState).access_token = none := by
  decide

/-- C1 (amended): `refresh_user` proceeds to the token-endpoint call only
when the loaded auth state is present and contains `refresh_token`
(`access_token` is not required); if the auth state is absent, empty, or
lacks `refresh_token`, it returns the soft failure `False` with no network
call and no mutation of the auth state. -/
theorem c1_guard (now age : Int) (fetch : Except Nat TokenResponse)
    (hook : Bool) (a? : Option AuthState) :
    ((a? = none ∨ ∃ a, a? = some a ∧ a.refresh_token = none) →
      refresh_user now age fetch hook a? =
        ⟨RefreshResult.notPossible, a?, false, none⟩) ∧
    ((refresh_user now age fetch hook a?).networkCalled = true →
      ∃ a, a? = some a ∧ a.refresh_token.isSome = true) := by
  constructor
  · rintro (rfl | ⟨a, rfl, hrt⟩)
    · rfl
    · simp [refresh_user, hrt]
  · intro hnet
    cases a? with
    | none => simp [refresh_user] at hnet
    | some a =>
      refine ⟨a, rfl, ?_⟩
      cases hrt : a.refresh_token with
      | none => simp [refresh_user, hrt] at hnet
      | some rt => simp

/-- C1 witness: with no auth state at all, refresh is not possible and no
network call is made. -/
theorem c1_guard_witness :
    refresh_user 0 300 (Except.error 0) false none =
      ⟨RefreshResult.notPossible, none, false, none⟩ :=
  (c1_guard 0 300 (Except.error 0) false none).1 (Or.inl rfl)

/-- C7: if the stored expiry minus the current time exceeds
`auth_refresh_age`, `refresh_user` returns "still valid" with no network
call and an unchanged auth state; hence two refresh calls within the
margin window perform no network call at all and leave the auth state
identical. -/
theorem c7_refresh_idempotent (now1 now2 age : Int)
    (f1 f2 : Except Nat TokenResponse) (h1 h2 : Bool) (a : AuthState)
    (hrt : a.refresh_token.isSome = true)
    (hv1 : storedExpiry a - now1 > age)
    (hv2 : storedExpiry a - now2 > age) :
    refresh_user now1 age f1 h1 (some a) =
      ⟨RefreshResult.stillValid, some a, false, none⟩ ∧
    refresh_user now2 age f2 h2
      (refresh_user now1 age f1 h1 (some a)).authState =
      ⟨RefreshResult.stillValid, some a, false, none⟩ := by
  obtain ⟨rt, hrt'⟩ := Option.isSome_iff_exists.mp hrt
  have h0 : refresh_user now1 age f1 h1 (some a) =
      ⟨RefreshResult.stillValid, some a, false, none⟩ := by
    simp [refresh_user, AuthState.isEmpty, hrt', hv1]
  refine ⟨h0, ?_⟩
  rw [h0]
  simp [refresh_user, AuthState.isEmpty, hrt', hv2]

/-- C7 witness: a state expiring at 1000 with margin 300 is still valid at
times 0 and 10, and two successive refresh calls touch neither the
network nor the state. -/
theorem c7_refresh_idempotent_witness :
    refresh_user 0 300 (Except.error 0) false
      (some ⟨some "at", some "rt", some ⟨⟨none, none, none, none⟩, some 1000⟩,
        none, none⟩) =
      ⟨RefreshResult.stillValid,
       some ⟨some "at", some "rt", some ⟨⟨none, none, none, none⟩, some 1000⟩,
         none, none⟩, false, none⟩ ∧
    refresh_user 10 300 (Except.error 1) true
      (refresh_user 0 300 (Except.error 0) false
        (some ⟨some "at", some "rt",
          some ⟨⟨none, none, none, none⟩, some 1000⟩, none, none⟩)).authState =
      ⟨RefreshResult.stillValid,
       some ⟨some "at", some "rt", some ⟨⟨none, none, none, none⟩, some 1000⟩,
         none, none⟩, false, none⟩ :=
  c7_refresh_idempotent 0 10 300 (Except.error 0) (Except.error 1) false true
    ⟨some "at", some "rt", some ⟨⟨none, none, none, none⟩, some 1000⟩,
      none, none⟩ (by decide) (by decide) (by decide)

/-- C8: when the token-endpoint call fails at the HTTP level
(`HTTPClientError`), `refresh_user` returns the soft failure `False`,
leaves the auth state untouched, and makes no hook call. -/
theorem c8_refresh_atomic (now age : Int) (code : Nat) (hook : Bool)
    (a : AuthState) (hrt : a.refresh_token.isSome = true)
    (hexp : ¬ storedExpiry a - now > age) :
    refresh_user now age (Except.error code) hook (some a) =
      ⟨RefreshResult.refreshFailed, some a, true, none⟩ := by
  obtain ⟨rt, hrt'⟩ := Option.isSome_iff_exists.mp hrt
  simp [refresh_user, AuthState.isEmpty, hrt', hexp]

/-- C8 witness: an expired state with a failing token endpoint yields the
soft failure and an unchanged state. -/
theorem c8_refresh_atomic_witness :
    refresh_user 1000 300 (Except.error 500) true
      (some ⟨some "at", some "rt", none, none, none⟩) =
      ⟨RefreshResult.refreshFailed,
       some ⟨some "at", some "rt", none, none, none⟩, true, none⟩ :=
  c8_refresh_atomic 1000 300 500 true ⟨some "at", some "rt", none, none, none⟩
    (by decide) (by decide)

/-- C9: on a successful token-endpoint response carrying `expires_in`,
`access_token` and `refresh_token`, `refresh_user` stores `expiry_time =
now + expires_in`, overwrites `access_token`, `refresh_token` and
`refresh_info` from the response, calls the spawner hook with the new
access token and the response's `id_token` when the hook exists, and
returns the updated auth state. -/
theorem c9_refresh_success (now age : Int) (resp : TokenResponse)
    (hook : Bool) (a : AuthState) (ei : Int) (tok rtok : String)
    (hrt : a.refresh_token.isSome = true)
    (hexp : ¬ storedExpiry a - now > age)
    (hei : resp.expires_in = some ei)
    (hat : resp.access_token = some tok)
    (hrt2 : resp.refresh_token = some rtok) :
    refresh_user now age (Except.ok resp) hook (some a) =
      ⟨RefreshResult.refreshed
         { a with refresh_info := some ⟨resp, some (now + ei)⟩,
                  access_token := some tok, refresh_token := some rtok },
       some { a with refresh_info := some ⟨resp, some (now + ei)⟩,
                     access_token := some tok, refresh_token := some rtok },
       true,
       if hook then some (tok, resp.id_token) else none⟩ := by
  obtain ⟨rt, hrt'⟩ := Option.isSome_iff_exists.mp hrt
  simp [refresh_user, AuthState.isEmpty, hrt', hexp, hei, hat, hrt2]

/-- C9 witness: a concrete successful refresh updates every field and
fires the hook with the new tokens. -/
theorem c9_refresh_success_witness :
    refresh_user 100 300 (Except.ok ⟨some 600, some "nat", some "nrt",
      some "nid"⟩) true (some ⟨some "at", some "rt", none, none, none⟩) =
      ⟨RefreshResult.refreshed
         ⟨some "nat", some "nrt",
          some ⟨⟨some 600, some "nat", some "nrt", some "nid"⟩, some 700⟩,
          none, none⟩,
       some ⟨some "nat", some "nrt",
         some ⟨⟨some 600, some "nat", some "nrt", some "nid"⟩, some 700⟩,
         none, none⟩,
       true, some ("nat", some "nid")⟩ :=
  c9_refresh_success 100 300 ⟨some 600, some "nat", some "nrt", some "nid"⟩
    true ⟨some "at", some "rt", none, none, none⟩ 600 "nat" "nrt"
    (by decide) (by decide) rfl rfl rfl

/-- C10: the soft-failure path of `refresh_user` covers only HTTP-level
errors; a 2xx token-endpoint response whose body lacks `expires_in`,
`access_token` or `refresh_token` makes the success branch fail with an
uncaught `KeyError` rather than return the soft failure. -/
theorem c10_refresh_keyerror (now age : Int) (resp : TokenResponse)
    (hook : Bool) (a : AuthState)
    (hrt : a.refresh_token.isSome = true)
    (hexp : ¬ storedExpiry a - now > age)
    (hmiss : resp.expires_in = none ∨ resp.access_token = none ∨
      resp.refresh_token = none) :
    (∃ k, (refresh_user now age (Except.ok resp) hook (some a)).result =
       RefreshResult.keyError k) ∧
    (refresh_user now age (Except.ok resp) hook (some a)).result ≠
       RefreshResult.refreshFailed := by
  obtain ⟨rt, hrt'⟩ := Option.isSome_iff_exists.mp hrt
  have hk : ∃ k, (refresh_user now age (Except.ok resp) hook (some a)).result =
      RefreshResult.keyError k := by
    rcases hmiss with h | h | h
    · exact ⟨"expires_in",
        by simp [refresh_user, AuthState.isEmpty, hrt', hexp, h]⟩
    · cases hei : resp.expires_in with
      | none => exact ⟨"expires_in",
          by simp [refresh_user, AuthState.isEmpty, hrt', hexp, hei]⟩
      | some ei => exact ⟨"access_token",
          by simp [refresh_user, AuthState.isEmpty, hrt', hexp, hei, h]⟩
    · cases hei : resp.expires_in with
      | none => exact ⟨"expires_in",
          by simp [refresh_user, AuthState.isEmpty, hrt', hexp, hei]⟩
      | some ei =>
        cases hat : resp.access_token with
        | none => exact ⟨"access_token",
            by simp [refresh_user, AuthState.isEmpty, hrt', hexp, hei, hat]⟩
        | some tok => exact ⟨"refresh_token",
            by simp [refresh_user, AuthState.isEmpty, hrt', hexp, hei, hat, h]⟩
  obtain ⟨k, hk'⟩ := hk
  exact ⟨⟨k, hk'⟩, by rw [hk']; simp⟩

/-- C10 witness: an empty 2xx body raises a `KeyError`, not the soft
failure. -/
theorem c10_refresh_keyerror_witness :
    (∃ k, (refresh_user 1000 300 (Except.ok ⟨none, none, none, none⟩) false
      (some ⟨some "at", some "rt", none, none, none⟩)).result =
        RefreshResult.keyError k) ∧
    (refresh_user 1000 300 (Except.ok ⟨none, none, none, none⟩) false
      (some ⟨some "at", some "rt", none, none, none⟩)).result ≠
        RefreshResult.refreshFailed :=
  c10_refresh_keyerror 1000 300 ⟨none, none, none, none⟩ false
    ⟨some "at", some "rt", none, none, none⟩ (by decide) (by decide)
    (Or.inl rfl)

/-- C2: every non-404 error from the storage system is fail-closed.  In
`authenticate`, a non-404 error on the named-token lookup, the token
creation, or the user resolution re-raises the error and returns no
auth state (so no `onedata_token`/`onedata_user` is stored); in
`pre_spawn_start`, a non-404 error on the mapping lookup or the mapping
creation re-raises the error and leaves the environment variables
unset. -/
theorem c2_fail_closed :
    (∀ (env : ZoneEnv) (a : AuthState) (t : String) (code : Nat),
       a.access_token = some t → env.lookup = Except.error code →
       code ≠ 404 →
       authenticate env a =
         ⟨AuthResult.raised code, [ZoneCall.lookupNamed env.token_name]⟩) ∧
    (∀ (env : ZoneEnv) (a : AuthState) (t : String) (code : Nat),
       a.access_token = some t → env.lookup = Except.error 404 →
       env.create = Except.error code → code ≠ 404 →
       authenticate env a =
         ⟨AuthResult.raised code,
          [ZoneCall.lookupNamed env.token_name,
           ZoneCall.createNamed env.token_name]⟩) ∧
    (∀ (env : ZoneEnv) (a : AuthState) (t : String) (code : Nat)
       (cb : CreateBody),
       a.access_token = some t → env.lookup = Except.error 404 →
       env.create = Except.ok cb → env.userinfo = Except.error code →
       code ≠ 404 →
       authenticate env a =
         ⟨AuthResult.raised code,
          [ZoneCall.lookupNamed env.token_name,
           ZoneCall.createNamed env.token_name, ZoneCall.getUser]⟩) ∧
    (∀ (env : SpawnEnv) (a : AuthState) (t : String) (code : Nat),
       a.access_token = some t → env.map_users = true →
       env.mapLookup = Except.error code → code ≠ 404 →
       pre_spawn_start env (some a) =
         ⟨SpawnResult.raised code, [MapCall.mapLookup a.onedata_user],
          none, none, if env.hasHook then some t else none⟩) ∧
    (∀ (env : SpawnEnv) (a : AuthState) (t : String) (code : Nat),
       a.access_token = some t → env.map_users = true →
       env.mapLookup = Except.error 404 → env.mapCreate = Except.error code →
       code ≠ 404 →
       pre_spawn_start env (some a) =
         ⟨SpawnResult.raised code,
          [MapCall.mapLookup a.onedata_user,
           MapCall.mapCreate (mkMapping a.onedata_user)],
          none, none, if env.hasHook then some t else none⟩) := by
  refine ⟨?_, ?_, ?_, ?_, ?_⟩
  · intro env a t code ha hl hne
    simp [authenticate, ha, hl, hne]
  · intro env a t code ha hl hc hne
    simp [authenticate, ha, hl, hc, tokenFalsy]
  · intro env a t code cb ha hl hc hu hne
    simp [authenticate, ha, hl, hc, hu, tokenFalsy]
  · intro env a t code ha hm hl hne
    cases hh : env.hasHook <;>
      simp [pre_spawn_start, AuthState.isEmpty, ha, hh, hm, hl, hne]
  · intro env a t code ha hm hl hc hne
    cases hh : env.hasHook <;>
      simp [pre_spawn_start, AuthState.isEmpty, ha, hh, hm, hl, hc]

/-- C2 witness: a 500 on the named-token lookup aborts `authenticate`
with that error after the single lookup call. -/
theorem c2_fail_closed_witness :
    authenticate ⟨"nb", Except.error 500, Except.error 0, Except.error 0⟩
      ⟨some "at", none, none, none, none⟩ =
      ⟨AuthResult.raised 500, [ZoneCall.lookupNamed "nb"]⟩ :=
  c2_fail_closed.1 ⟨"nb", Except.error 500, Except.error 0, Except.error 0⟩
    ⟨some "at", none, none, none, none⟩ "at" 500 rfl rfl (by decide)

/-- C3: when the named-token lookup succeeds with a non-empty token, no
creation and no user-resolution request is issued, and the returned auth
state carries exactly the looked-up token value and subject id. -/
theorem c3_token_reuse (env : ZoneEnv) (a : AuthState) (t : String)
    (b : LookupBody) (ha : a.access_token = some t)
    (hl : env.lookup = Except.ok b) (hne : b.token ≠ "") :
    authenticate env a =
      ⟨AuthResult.ok { a with onedata_token := some b.token,
                              onedata_user := some b.subject_id },
       [ZoneCall.lookupNamed env.token_name]⟩ := by
  simp [authenticate, ha, hl, tokenFalsy, hne]

/-- C3 witness: a found token is reused as-is, with only the lookup call
issued. -/
theorem c3_token_reuse_witness :
    authenticate ⟨"nb", Except.ok ⟨"tok", "uid"⟩, Except.error 0,
        Except.error 0⟩ ⟨some "at", none, none, none, none⟩ =
      ⟨AuthResult.ok ⟨some "at", none, none, some "tok", some "uid"⟩,
       [ZoneCall.lookupNamed "nb"]⟩ :=
  c3_token_reuse ⟨"nb", Except.ok ⟨"tok", "uid"⟩, Except.error 0,
      Except.error 0⟩ ⟨some "at", none, none, none, none⟩ "at" ⟨"tok", "uid"⟩
    rfl rfl (by decide)

/-- C4: when the named-token lookup returns 404, exactly one creation
POST then exactly one user-resolution GET are issued, in that order, and
the returned auth state takes `onedata_token` from the creation response
and `onedata_user` from the user-resolution response. -/
theorem c4_token_create (env : ZoneEnv) (a : AuthState) (t : String)
    (cb : CreateBody) (ub : UserBody) (ha : a.access_token = some t)
    (hl : env.lookup = Except.error 404) (hc : env.create = Except.ok cb)
    (hu : env.userinfo = Except.ok ub) :
    authenticate env a =
      ⟨AuthResult.ok { a with onedata_token := some cb.token,
                              onedata_user := some ub.userId },
       [ZoneCall.lookupNamed env.token_name,
        ZoneCall.createNamed env.token_name, ZoneCall.getUser]⟩ := by
  simp [authenticate, ha, hl, hc, hu, tokenFalsy]

/-- C4 witness: a 404 lookup leads to the create + resolve sequence and
an auth state built from the two responses. -/
theorem c4_token_create_witness :
    authenticate ⟨"nb", Except.error 404, Except.ok ⟨"newtok"⟩,
        Except.ok ⟨"u42"⟩⟩ ⟨some "at", none, none, none, none⟩ =
      ⟨AuthResult.ok ⟨some "at", none, none, some "newtok", some "u42"⟩,
       [ZoneCall.lookupNamed "nb", ZoneCall.createNamed "nb",
        ZoneCall.getUser]⟩ :=
  c4_token_create ⟨"nb", Except.error 404, Except.ok ⟨"newtok"⟩,
      Except.ok ⟨"u42"⟩⟩ ⟨some "at", none, none, none, none⟩ "at"
    ⟨"newtok"⟩ ⟨"u42"⟩ rfl rfl rfl rfl

/-- C5: mapping idempotence.  With mapping enabled, a 2xx mapping lookup
issues no creation POST, and a 404 lookup issues exactly one creation
POST whose payload pairs the storage user id with the fixed POSIX
descriptor (`type posix`, `uid 1000`). -/
theorem c5_mapping_idempotent (env : SpawnEnv) (a : AuthState) (t : String)
    (ha : a.access_token = some t) (hm : env.map_users = true) :
    (∀ u, env.mapLookup = Except.ok u →
       (pre_spawn_start env (some a)).calls =
         [MapCall.mapLookup a.onedata_user]) ∧
    (env.mapLookup = Except.error 404 →
       (pre_spawn_start env (some a)).calls =
         [MapCall.mapLookup a.onedata_user,
          MapCall.mapCreate ⟨a.onedata_user, "posix", "1000", "1000"⟩]) := by
  constructor
  · intro u hl
    cases hh : env.hasHook <;>
      simp [pre_spawn_start, AuthState.isEmpty, ha, hh, hm, hl]
  · intro hl
    cases hh : env.hasHook <;> rcases hc : env.mapCreate with c2 | u2 <;>
      simp [pre_spawn_start, AuthState.isEmpty, ha, hh, hm, hl, hc, mkMapping]

/-- C5 witness: an existing mapping stops after the lookup call. -/
theorem c5_mapping_idempotent_witness :
    (pre_spawn_start ⟨true, false, "prov", Except.ok (), Except.error 0⟩
      (some ⟨some "at", none, none, some "ot", some "ou"⟩)).calls =
      [MapCall.mapLookup (some "ou")] :=
  (c5_mapping_idempotent ⟨true, false, "prov", Except.ok (), Except.error 0⟩
    ⟨some "at", none, none, some "ot", some "ou"⟩ "at" rfl rfl).1 () rfl

/-- C6 (counterexample): the claim says the two environment variables are
set regardless of the outcome of the mapping stage; but when the mapping
lookup fails with a non-404 error the raised exception skips lines
323-324, so neither variable is set. -/
theorem c6_env_cex :
    pre_spawn_start ⟨true, false, "prov", Except.error 500, Except.ok ()⟩
      (some ⟨some "at", none, none, some "ot", some "ou"⟩) =
      ⟨SpawnResult.raised 500, [MapCall.mapLookup (some "ou")],
       none, none, none⟩ := by
  decide

/-- C6 (amended): whenever `pre_spawn_start` on a present (non-empty)
auth state completes without raising, the spawner environment receives
the stored `onedata_token` under the token env var and the configured
oneprovider host under the provider env var. -/
theorem c6_env_set (env : SpawnEnv) (a : AuthState)
    (hne : a.isEmpty = false)
    (hok : (pre_spawn_start env (some a)).result = SpawnResult.ok) :
    (pre_spawn_start env (some a)).envToken = some a.onedata_token ∧
    (pre_spawn_start env (some a)).envHost = some env.oneprovider_host := by
  revert hok
  cases hh : env.hasHook <;> cases hat : a.access_token <;>
    cases hm : env.map_users <;> rcases hl : env.mapLookup with code | u <;>
      rcases hc : env.mapCreate with c2 | u2 <;>
        simp [pre_spawn_start, hne, hh, hat, hm, hl, hc] <;>
          by_cases h404 : code = 404 <;> simp [h404]

/-- C6 witness: with mapping disabled and a non-empty auth state, the
call completes and both environment variables are set. -/
theorem c6_env_set_witness :
    (pre_spawn_start ⟨false, false, "prov", Except.ok (), Except.ok ()⟩
      (some ⟨none, none, none, some "ot", none⟩)).envToken =
        some (some "ot") :=
  (c6_env_set ⟨false, false, "prov", Except.ok (), Except.ok ()⟩
    ⟨none, none, none, some "ot", none⟩ (by decide) (by decide)).1
